import Mathlib

/-!
Shallow embedding of `src/firmware/merge_firmware.py`, a PlatformIO
post-build hook that renames the application binary for OTA updates and
merges bootloader, partition table and application into a setup image.

The filesystem is modelled as an association list from paths to file data
(content and modification time); the external merge process
(`subprocess.run`) is modelled as an oracle mapping the command string and
the current filesystem to a process result and a new filesystem.  Printed
progress and warning lines are modelled as structured messages, one
constructor per `print` call in the source, carrying the interpolated
values.
-/

namespace MergeFirmware

/-- A file on disk: its content (a sequence of bytes, modelled as the
characters of a string, so that the byte size is the content length) and
its modification time, the metadata `shutil.copy2` preserves. -/
structure FileData where
  content : String
  mtime : Nat
deriving DecidableEq

/-- The filesystem: an association list from absolute path to file data.
A later binding for the same path shadows an earlier one. -/
abbrev FS := List (String × FileData)

/-- Look a path up in the filesystem (`open` for reading / `os.path` accessors). -/
def fsRead (fs : FS) (p : String) : Option FileData :=
  match fs with
  | [] => none
  | (q, d) :: rest => if q = p then some d else fsRead rest p

/-- Model of `os.path.exists`. -/
def fsExists (fs : FS) (p : String) : Bool :=
  (fsRead fs p).isSome

/-- Write a file (creating or overwriting). -/
def fsWrite (fs : FS) (p : String) (d : FileData) : FS :=
  (p, d) :: fs

/-- Model of `os.path.getsize`: the byte size of the file at `p`, or `none` when the
file does not exist (in which case Python raises `OSError`). -/
def os_path_getsize (fs : FS) (p : String) : Option Nat :=
  (fsRead fs p).map (fun d => d.content.length)

/-- Whether a path string starts with the POSIX separator. -/
def startsWithSlash (s : String) : Bool :=
  match s.data with
  | [] => false
  | c :: _ => c = '/'

/-- Whether a path string ends with the POSIX separator. -/
def endsWithSlash (s : String) : Bool :=
  match s.data.getLast? with
  | some c => c = '/'
  | none => false

/-- Model of `os.path.join` for POSIX paths, two arguments. -/
def pathJoin (a b : String) : String :=
  if startsWithSlash b then b
  else if a = "" then b
  else if endsWithSlash a then a ++ b
  else a ++ "/" ++ b

/-- The SCons construction environment of the hook (`Import("env")`):
the substitution variables the script actually reads. -/
structure Env where
  project_dir : String
  build_dir : String
  pythonexe : String

/-- Model of `env.subst`, restricted to the three variables the script substitutes. -/
def Env.subst (env : Env) (s : String) : String :=
  if s = "$PROJECT_DIR" then env.project_dir
  else if s = "$BUILD_DIR" then env.build_dir
  else if s = "$PYTHONEXE" then env.pythonexe
  else s

/-- The path `os.path.join(env.subst("$PROJECT_DIR"), "include", "config.h")`. -/
def configPath (env : Env) : String :=
  pathJoin (pathJoin (env.subst "$PROJECT_DIR") "include") "config.h"

/-- The whitespace class of the version regex (`\s`), over the ASCII range:
space, tab, newline, carriage return, vertical tab, form feed. -/
def isPySpace (c : Char) : Bool :=
  c = ' ' || c = '\t' || c = '\n' || c = '\r' || c = Char.ofNat 11 || c = Char.ofNat 12

/-- Match a literal token at the head of the input; on success return the
rest of the input. -/
def matchLit : List Char → List Char → Option (List Char)
  | [], s => some s
  | _ :: _, [] => none
  | c :: cs, d :: ds => if c = d then matchLit cs ds else none

/-- The literal `#define` of the version regex. -/
def defineTok : List Char := "#define".data

/-- The literal `FIRMWARE_VERSION` of the version regex. -/
def fwVersionTok : List Char := "FIRMWARE_VERSION".data

/-- Try to match the regex
`#define\s+FIRMWARE_VERSION\s+"([^"]+)"` at the start of `s`, returning the
captured group.  Each greedy piece (`\s+`, `[^"]+`) is followed by a literal
its class excludes, so maximal munch coincides with the backtracking
regex semantics. -/
def matchDefineAt (s : List Char) : Option (List Char) :=
  match matchLit defineTok s with
  | none => none
  | some s1 =>
    let ws1 := s1.takeWhile isPySpace
    let r1 := s1.dropWhile isPySpace
    if ws1.isEmpty then none else
    match matchLit fwVersionTok r1 with
    | none => none
    | some s2 =>
      let ws2 := s2.takeWhile isPySpace
      let r2 := s2.dropWhile isPySpace
      if ws2.isEmpty then none else
      match r2 with
      | [] => none
      | c :: s3 =>
        if c = '"' then
          let val := s3.takeWhile (fun d => !(d = '"'))
          let r3 := s3.dropWhile (fun d => !(d = '"'))
          if val.isEmpty then none else
          match r3 with
          | [] => none
          | d :: _ => if d = '"' then some val else none
        else none

/-- Model of `re.search` for the version regex: try the match at every position,
left to right, returning the first capture. -/
def reSearchDefine : List Char → Option (List Char)
  | [] => matchDefineAt []
  | c :: rest =>
    match matchDefineAt (c :: rest) with
    | some v => some v
    | none => reSearchDefine rest

/-- One structured message per `print` call in the source, carrying the
values the corresponding f-string interpolates. -/
inductive OutMsg where
  /-- Line `print(f"Warning: Could not read version from config.h: ...")` -/
  | warnVersionRead
  /-- Line `print(f"Created app-firmware-<version>.bin: <size> bytes")` -/
  | createdApp (version : String) (size : Nat)
  /-- Line `print("Warning: Not all firmware files exist, skipping merge")` -/
  | warnNotAllExist
  /-- Line `print(f"Creating setup-firmware-<version>.bin...")` -/
  | creatingSetup (version : String)
  /-- Line `print(f"Created setup-firmware-<version>.bin: <size> bytes")` -/
  | createdSetup (version : String) (size : Nat)
  /-- the three-line `Build outputs in <build_dir>` listing -/
  | buildOutputs (buildDir : String) (version : String)
  /-- Line `print(f"Error creating merged firmware: <stderr>")` -/
  | errorMerge (stderr : String)
deriving DecidableEq

/-- Function `get_firmware_version()`: extract `FIRMWARE_VERSION` from `config.h`.
Returns the version string together with the warnings it printed; an
unreadable file is the `except Exception` path (warning printed, sentinel
returned), a readable file without a match silently returns the
sentinel. The function is total: it never propagates an exception. -/
def get_firmware_version (env : Env) (fs : FS) : String × List OutMsg :=
  match fsRead fs (configPath env) with
  | none => ("unknown", [OutMsg.warnVersionRead])
  | some fd =>
    match reSearchDefine fd.content.data with
    | some v => (String.mk v, [])
    | none => ("unknown", [])

/-- The two output artifact kinds. -/
inductive OutputKind where
  | app
  | setup
deriving DecidableEq

/-- The versioned output file names of the two artifacts
(`f"app-firmware-<version>.bin"` on line 26, `f"setup-firmware-<version>.bin"`
on line 42). -/
def outputName : OutputKind → String → String
  | OutputKind.app, v => "app-firmware-" ++ v ++ ".bin"
  | OutputKind.setup, v => "setup-firmware-" ++ v ++ ".bin"

/-- The path `os.path.join(build_dir, "bootloader.bin")` (line 40). -/
def bootloaderPath (env : Env) : String :=
  pathJoin (env.subst "$BUILD_DIR") "bootloader.bin"

/-- The path `os.path.join(build_dir, "partitions.bin")` (line 41). -/
def partitionsPath (env : Env) : String :=
  pathJoin (env.subst "$BUILD_DIR") "partitions.bin"

/-- The path `os.path.join(build_dir, "firmware.bin")` (lines 24 and 42). -/
def firmwarePath (env : Env) : String :=
  pathJoin (env.subst "$BUILD_DIR") "firmware.bin"

/-- The path `os.path.join(build_dir, f"...-firmware-<version>.bin")` (lines 26 and 43). -/
def outputPath (env : Env) (k : OutputKind) (version : String) : String :=
  pathJoin (env.subst "$BUILD_DIR") (outputName k version)

/-- Result of running a hook that only copies: the messages printed, the
filesystem afterwards, and whether an exception escaped. -/
structure RenameResult where
  msgs : List OutMsg
  fs : FS
  raised : Bool
deriving DecidableEq

/-- Function `rename_app_firmware(source, target, env)`: copy `firmware.bin` to
`app-firmware-<version>.bin` (content and mtime preserved, as by
`shutil.copy2`) and report the size of the copy; silently do nothing when
`firmware.bin` is absent. -/
def rename_app_firmware (env : Env) (fs : FS) : RenameResult :=
  let vr := get_firmware_version env fs
  let version := vr.1
  let firmware_src := firmwarePath env
  let firmware_dst := outputPath env OutputKind.app version
  match fsRead fs firmware_src with
  | some d =>
    let fs1 := fsWrite fs firmware_dst d
    match os_path_getsize fs1 firmware_dst with
    | some size =>
      { msgs := vr.2 ++ [OutMsg.createdApp version size], fs := fs1, raised := false }
    | none => { msgs := vr.2, fs := fs1, raised := true }
  | none => { msgs := vr.2, fs := fs, raised := false }

/-- Outcome of `subprocess.run(..., capture_output=True, text=True)`. -/
structure ProcResult where
  returncode : Int
  stdout : String
  stderr : String

/-- The external merge process, as a black box: given the shell command and
the filesystem, it returns its process result and the filesystem it leaves
behind. -/
abbrev Runner := String → FS → ProcResult × FS

/-- The existence check of line 45:
`all(os.path.exists(f) for f in [bootloader, partitions, firmware])`. -/
def prereqsExist (env : Env) (fs : FS) : Bool :=
  fsExists fs (bootloaderPath env)
    && fsExists fs (partitionsPath env)
    && fsExists fs (firmwarePath env)

/-- Result of running the merge hook: the messages printed, the filesystem
afterwards, the command handed to `subprocess.run` (if it was invoked at
all), and whether an exception escaped. -/
structure MergeResult where
  msgs : List OutMsg
  fs : FS
  invoked : Option String
  raised : Bool

/-- The shell command interpolated on line 53 of the source, given the
already-substituted paths. -/
def mergeCmd (env : Env) (output bootloader partitions firmware : String) : String :=
  (env.subst "$PYTHONEXE" ++ " -m esptool")
    ++ " --chip esp32c3 merge_bin -o \"" ++ output
    ++ "\" --flash_mode dio --flash_size 4MB 0x0 \"" ++ bootloader
    ++ "\" 0x8000 \"" ++ partitions
    ++ "\" 0x10000 \"" ++ firmware ++ "\""

/-- The merge command for a resolved version: `mergeCmd` applied to the
output, bootloader, partition-table and application paths of the build
directory (the value bound to `cmd` on line 53). -/
def mergeCmdFor (env : Env) (version : String) : String :=
  mergeCmd env (outputPath env OutputKind.setup version)
    (bootloaderPath env) (partitionsPath env) (firmwarePath env)

/-- Function `merge_bin_action(source, target, env)`: check that bootloader,
partition table and application binaries all exist; if not, warn and skip.
Otherwise build the merge command, run it, and on exit code zero report the
size of the produced setup image (reading it with `os.path.getsize`, which
raises if the file is absent), on nonzero exit report the captured stderr. -/
def merge_bin_action (env : Env) (run : Runner) (fs : FS) : MergeResult :=
  let build_dir := env.subst "$BUILD_DIR"
  let vr := get_firmware_version env fs
  let version := vr.1
  let output := outputPath env OutputKind.setup version
  if prereqsExist env fs then
    let cmd := mergeCmdFor env version
    let rr := run cmd fs
    let result := rr.1
    let fs1 := rr.2
    if result.returncode = 0 then
      match os_path_getsize fs1 output with
      | some size =>
        { msgs := vr.2 ++ [OutMsg.creatingSetup version, OutMsg.createdSetup version size,
                           OutMsg.buildOutputs build_dir version],
          fs := fs1, invoked := some cmd, raised := false }
      | none =>
        { msgs := vr.2 ++ [OutMsg.creatingSetup version], fs := fs1,
          invoked := some cmd, raised := true }
    else
      { msgs := vr.2 ++ [OutMsg.creatingSetup version, OutMsg.errorMerge result.stderr],
        fs := fs1, invoked := some cmd, raised := false }
  else
    { msgs := vr.2 ++ [OutMsg.warnNotAllExist], fs := fs, invoked := none, raised := false }

/-! ## Lemmas about the embedded regex matcher -/

lemma matchLit_append (lit rest : List Char) : matchLit lit (lit ++ rest) = some rest := by
  induction lit with
  | nil => rfl
  | cons c cs ih => simp [matchLit, ih]

lemma takeWhile_append_cons (p : Char → Bool) (xs : List Char) (y : Char) (ys : List Char)
    (hxs : ∀ x ∈ xs, p x = true) (hy : p y = false) :
    (xs ++ y :: ys).takeWhile p = xs := by
  induction xs with
  | nil => simp [List.takeWhile_cons, hy]
  | cons a t ih =>
    have ha : p a = true := hxs a (by simp)
    simp only [List.cons_append, List.takeWhile_cons, ha, if_true]
    rw [ih (fun x hx => hxs x (by simp [hx]))]

lemma dropWhile_append_cons (p : Char → Bool) (xs : List Char) (y : Char) (ys : List Char)
    (hxs : ∀ x ∈ xs, p x = true) (hy : p y = false) :
    (xs ++ y :: ys).dropWhile p = y :: ys := by
  induction xs with
  | nil => simp [List.dropWhile_cons, hy]
  | cons a t ih =>
    have ha : p a = true := hxs a (by simp)
    simp only [List.cons_append, List.dropWhile_cons, ha, if_true]
    exact ih (fun x hx => hxs x (by simp [hx]))

lemma matchDefineAt_ne_hash (c : Char) (s : List Char) (hc : c ≠ '#') :
    matchDefineAt (c :: s) = none := by
  have h1 : matchLit defineTok (c :: s) = none := by
    show matchLit ('#' :: "define".data) (c :: s) = none
    rw [matchLit, if_neg (fun h => hc h.symm)]
  simp [matchDefineAt, h1]

lemma matchDefineAt_build (ws1 ws2 v post : List Char)
    (hws1 : ws1 ≠ []) (hws1s : ∀ c ∈ ws1, isPySpace c = true)
    (hws2 : ws2 ≠ []) (hws2s : ∀ c ∈ ws2, isPySpace c = true)
    (hv : v ≠ []) (hvq : ∀ c ∈ v, c ≠ '"') :
    matchDefineAt
      (defineTok ++ (ws1 ++ (fwVersionTok ++ (ws2 ++ '"' :: (v ++ '"' :: post))))) = some v := by
  have hXfw : fwVersionTok ++ (ws2 ++ '"' :: (v ++ '"' :: post))
      = 'F' :: ("IRMWARE_VERSION".data ++ (ws2 ++ '"' :: (v ++ '"' :: post))) := rfl
  have hF : isPySpace 'F' = false := by decide
  have hq : isPySpace '"' = false := by decide
  have hvq' : ∀ c ∈ v, (fun d => !(d = '"')) c = true := by
    intro c hc
    simpa using hvq c hc
  have hqq : (fun d => !(d = '"')) '"' = false := by simp
  have t1 := takeWhile_append_cons isPySpace ws1 'F'
    ("IRMWARE_VERSION".data ++ (ws2 ++ '"' :: (v ++ '"' :: post))) hws1s hF
  have d1 := dropWhile_append_cons isPySpace ws1 'F'
    ("IRMWARE_VERSION".data ++ (ws2 ++ '"' :: (v ++ '"' :: post))) hws1s hF
  have m2 : matchLit fwVersionTok
      ('F' :: ("IRMWARE_VERSION".data ++ (ws2 ++ '"' :: (v ++ '"' :: post))))
      = some (ws2 ++ '"' :: (v ++ '"' :: post)) := by
    rw [← hXfw]
    exact matchLit_append _ _
  have t2 := takeWhile_append_cons isPySpace ws2 '"' (v ++ '"' :: post) hws2s hq
  have d2 := dropWhile_append_cons isPySpace ws2 '"' (v ++ '"' :: post) hws2s hq
  have t3 := takeWhile_append_cons (fun d => !(d = '"')) v '"' post hvq' hqq
  have d3 := dropWhile_append_cons (fun d => !(d = '"')) v '"' post hvq' hqq
  have e1 : ws1.isEmpty = false := by
    cases ws1 with
    | nil => exact absurd rfl hws1
    | cons _ _ => rfl
  have e2 : ws2.isEmpty = false := by
    cases ws2 with
    | nil => exact absurd rfl hws2
    | cons _ _ => rfl
  have e3 : v.isEmpty = false := by
    cases v with
    | nil => exact absurd rfl hv
    | cons _ _ => rfl
  simp only [matchDefineAt, matchLit_append, hXfw, t1, d1, e1, Bool.false_eq_true, if_false,
    m2, t2, d2, e2, t3, d3, e3, if_true]

lemma reSearchDefine_of_matchAt (l v : List Char) (h : matchDefineAt l = some v) :
    reSearchDefine l = some v := by
  cases l with
  | nil => simpa [reSearchDefine] using h
  | cons c t => simp [reSearchDefine, h]

lemma reSearchDefine_append_no_hash (pre s : List Char) (hpre : ∀ c ∈ pre, c ≠ '#') :
    reSearchDefine (pre ++ s) = reSearchDefine s := by
  induction pre with
  | nil => rfl
  | cons c t ih =>
    have hc : c ≠ '#' := hpre c (by simp)
    simp only [List.cons_append, reSearchDefine, List.append_eq,
      matchDefineAt_ne_hash c (t ++ s) hc]
    exact ih (fun d hd => hpre d (by simp [hd]))

lemma reSearchDefine_build (pre ws1 ws2 v post : List Char)
    (hpre : ∀ c ∈ pre, c ≠ '#')
    (hws1 : ws1 ≠ []) (hws1s : ∀ c ∈ ws1, isPySpace c = true)
    (hws2 : ws2 ≠ []) (hws2s : ∀ c ∈ ws2, isPySpace c = true)
    (hv : v ≠ []) (hvq : ∀ c ∈ v, c ≠ '"') :
    reSearchDefine
      (pre ++ (defineTok ++ (ws1 ++ (fwVersionTok ++ (ws2 ++ '"' :: (v ++ '"' :: post))))))
      = some v := by
  rw [reSearchDefine_append_no_hash pre _ hpre]
  exact reSearchDefine_of_matchAt _ _
    (matchDefineAt_build ws1 ws2 v post hws1 hws1s hws2 hws2s hv hvq)

lemma matchDefineAt_shape (s v : List Char) (h : matchDefineAt s = some v) :
    v ≠ [] ∧ ∀ c ∈ v, c ≠ '"' := by
  simp only [matchDefineAt] at h
  repeat' split at h
  all_goals first
  | exact Option.noConfusion h
  | (injection h with h
     rename_i hval x c tail heq hc
     subst h
     refine ⟨fun hnil => hval ?_, fun d hd => ?_⟩
     · rw [hnil]
       rfl
     · have := List.mem_takeWhile_imp hd
       simpa using this)

lemma reSearchDefine_shape (s v : List Char) (h : reSearchDefine s = some v) :
    v ≠ [] ∧ ∀ c ∈ v, c ≠ '"' := by
  induction s with
  | nil => exact matchDefineAt_shape _ _ h
  | cons c t ih =>
    rw [reSearchDefine] at h
    cases hm : matchDefineAt (c :: t) with
    | some w =>
      rw [hm] at h
      injection h with h
      subst h
      exact matchDefineAt_shape _ _ hm
    | none =>
      rw [hm] at h
      exact ih h

/-! ## Small facts about the filesystem and environment model -/

lemma fsRead_fsWrite_self (fs : FS) (p : String) (d : FileData) :
    fsRead (fsWrite fs p d) p = some d := by
  simp [fsRead, fsWrite]

lemma subst_build_dir (env : Env) : env.subst "$BUILD_DIR" = env.build_dir := by
  unfold Env.subst
  rw [if_neg (by decide), if_pos rfl]

lemma subst_pythonexe (env : Env) : env.subst "$PYTHONEXE" = env.pythonexe := by
  unfold Env.subst
  rw [if_neg (by decide), if_neg (by decide), if_pos rfl]

lemma os_path_getsize_write_self (fs : FS) (p : String) (d : FileData) :
    os_path_getsize (fsWrite fs p d) p = some d.content.length := by
  simp [os_path_getsize, fsRead_fsWrite_self]

lemma os_path_getsize_of_read (fs : FS) (p : String) (fd : FileData)
    (h : fsRead fs p = some fd) : os_path_getsize fs p = some fd.content.length := by
  simp [os_path_getsize, h]

/-- The skipped branch of the merge hook, in full. -/
lemma merge_skip_eq (env : Env) (run : Runner) (fs : FS)
    (hp : prereqsExist env fs = false) :
    merge_bin_action env run fs
      = { msgs := (get_firmware_version env fs).2 ++ [OutMsg.warnNotAllExist],
          fs := fs, invoked := none, raised := false } := by
  simp only [merge_bin_action, hp, Bool.false_eq_true, if_false]

/-- When the prerequisites exist, the merge hook always hands exactly the
interpolated command to `subprocess.run`, whatever the run does. -/
lemma merge_invoked_eq (env : Env) (run : Runner) (fs : FS)
    (hp : prereqsExist env fs = true) :
    (merge_bin_action env run fs).invoked
      = some (mergeCmdFor env (get_firmware_version env fs).1) := by
  simp only [merge_bin_action, hp, if_true]
  split
  · split <;> rfl
  · rfl

/-- The successful branch of the merge hook, in full. -/
lemma merge_success_eq (env : Env) (run : Runner) (fs : FS) (pr : ProcResult) (fs' : FS) (n : Nat)
    (hp : prereqsExist env fs = true)
    (hrun : run (mergeCmdFor env (get_firmware_version env fs).1) fs = (pr, fs'))
    (hrc : pr.returncode = 0)
    (hsz : os_path_getsize fs' (outputPath env OutputKind.setup (get_firmware_version env fs).1)
      = some n) :
    merge_bin_action env run fs
      = { msgs := (get_firmware_version env fs).2
            ++ [OutMsg.creatingSetup (get_firmware_version env fs).1,
                OutMsg.createdSetup (get_firmware_version env fs).1 n,
                OutMsg.buildOutputs (env.subst "$BUILD_DIR") (get_firmware_version env fs).1],
          fs := fs', invoked := some (mergeCmdFor env (get_firmware_version env fs).1),
          raised := false } := by
  simp only [merge_bin_action, hp, if_true, hrun, hrc, hsz]

/-- The failing branch of the merge hook, in full. -/
lemma merge_failure_eq (env : Env) (run : Runner) (fs : FS) (pr : ProcResult) (fs' : FS)
    (hp : prereqsExist env fs = true)
    (hrun : run (mergeCmdFor env (get_firmware_version env fs).1) fs = (pr, fs'))
    (hrc : pr.returncode ≠ 0) :
    merge_bin_action env run fs
      = { msgs := (get_firmware_version env fs).2
            ++ [OutMsg.creatingSetup (get_firmware_version env fs).1,
                OutMsg.errorMerge pr.stderr],
          fs := fs', invoked := some (mergeCmdFor env (get_firmware_version env fs).1),
          raised := false } := by
  simp only [merge_bin_action, hp, if_true, hrun]
  rw [if_neg hrc]

/-- The copying branch of the OTA rename hook, in full. -/
lemma rename_copy_eq (env : Env) (fs : FS) (fd : FileData)
    (h : fsRead fs (firmwarePath env) = some fd) :
    rename_app_firmware env fs
      = { msgs := (get_firmware_version env fs).2
            ++ [OutMsg.createdApp (get_firmware_version env fs).1 fd.content.length],
          fs := fsWrite fs (outputPath env OutputKind.app (get_firmware_version env fs).1) fd,
          raised := false } := by
  simp only [rename_app_firmware, h, os_path_getsize_write_self]

/-- The no-op branch of the OTA rename hook, in full. -/
lemma rename_noop_eq (env : Env) (fs : FS)
    (h : fsRead fs (firmwarePath env) = none) :
    rename_app_firmware env fs
      = { msgs := (get_firmware_version env fs).2, fs := fs, raised := false } := by
  simp only [rename_app_firmware, h]

/-! ## Concrete fixtures used by witnesses and counterexamples -/

/-- A concrete environment. -/
def envW : Env := ⟨"/proj", "/build", "python3"⟩

/-- A concrete `config.h` defining version `1.2.3`. -/
def cfgW : FileData := ⟨"#define FIRMWARE_VERSION \"1.2.3\"", 1⟩

/-- A build directory holding all three prerequisite binaries. -/
def fsFull : FS :=
  [("/proj/include/config.h", cfgW),
   ("/build/bootloader.bin", ⟨"BBB", 11⟩),
   ("/build/partitions.bin", ⟨"PP", 12⟩),
   ("/build/firmware.bin", ⟨"FWFW", 13⟩)]

/-- The same build directory with the partition table missing. -/
def fsNoPartitions : FS :=
  [("/proj/include/config.h", cfgW),
   ("/build/bootloader.bin", ⟨"BBB", 11⟩),
   ("/build/firmware.bin", ⟨"FWFW", 13⟩)]

/-- An external tool that reports success but writes nothing. -/
def runPhantomOk : Runner := fun _ fs => (⟨0, "", ""⟩, fs)

/-- An external tool that fails with diagnostic text on stderr. -/
def runFail : Runner := fun _ fs => (⟨1, "", "merge blew up"⟩, fs)

/-- An external tool that succeeds and writes a six-byte setup image at the
expected output path. -/
def runCreates : Runner := fun _ fs =>
  (⟨0, "", ""⟩, fsWrite fs "/build/setup-firmware-1.2.3.bin" ⟨"MERGED", 99⟩)

/-! ## Claim theorems -/

/-- C1: the setup-image merge is attempted if and only if all three
prerequisite files exist; whenever at least one is missing,
`merge_bin_action` prints the `not all firmware files exist` warning and
returns without invoking the external merge process. -/
theorem merge_invoked_iff_prereqs (env : Env) (run : Runner) (fs : FS) :
    ((merge_bin_action env run fs).invoked.isSome = true ↔ prereqsExist env fs = true)
    ∧ (prereqsExist env fs = false →
        (merge_bin_action env run fs).invoked = none
        ∧ (merge_bin_action env run fs).msgs
            = (get_firmware_version env fs).2 ++ [OutMsg.warnNotAllExist]) := by
  cases hp : prereqsExist env fs with
  | false =>
    rw [merge_skip_eq env run fs hp]
    exact ⟨by simp, fun _ => ⟨rfl, rfl⟩⟩
  | true =>
    refine ⟨?_, fun h => absurd h (by decide)⟩
    rw [merge_invoked_eq env run fs hp]
    simp

/-- Witness for C1: with `partitions.bin` removed, the hook does not invoke
the tool and warns; with all three present, it does invoke the tool. -/
theorem merge_invoked_iff_prereqs_witness :
    ((merge_bin_action envW runFail fsNoPartitions).invoked = none
      ∧ (merge_bin_action envW runFail fsNoPartitions).msgs
          = (get_firmware_version envW fsNoPartitions).2 ++ [OutMsg.warnNotAllExist])
    ∧ (merge_bin_action envW runCreates fsFull).invoked.isSome = true :=
  ⟨(merge_invoked_iff_prereqs envW runFail fsNoPartitions).2 (by decide),
   (merge_invoked_iff_prereqs envW runCreates fsFull).1.mpr (by decide)⟩

/-- C2: whenever the merge is invoked, for every version string and every
filesystem content, the command handed to the external process is exactly
the interpolation that places the bootloader at offset `0x0`, the partition
table at `0x8000` and the application at `0x10000`, in that order, with the
fixed chip identifier `esp32c3`, flash mode `dio` and flash size `4MB`. -/
theorem merge_cmd_offsets (env : Env) (run : Runner) (fs : FS)
    (hp : prereqsExist env fs = true) :
    (merge_bin_action env run fs).invoked
      = some (env.pythonexe ++ " -m esptool"
          ++ " --chip esp32c3 merge_bin -o \""
          ++ outputPath env OutputKind.setup (get_firmware_version env fs).1
          ++ "\" --flash_mode dio --flash_size 4MB 0x0 \"" ++ bootloaderPath env
          ++ "\" 0x8000 \"" ++ partitionsPath env
          ++ "\" 0x10000 \"" ++ firmwarePath env ++ "\"") := by
  rw [merge_invoked_eq env run fs hp]
  rw [mergeCmdFor, mergeCmd, subst_pythonexe]

/-- Witness for C2 at the concrete full build directory. -/
theorem merge_cmd_offsets_witness :
    (merge_bin_action envW runCreates fsFull).invoked
      = some (envW.pythonexe ++ " -m esptool"
          ++ " --chip esp32c3 merge_bin -o \""
          ++ outputPath envW OutputKind.setup (get_firmware_version envW fsFull).1
          ++ "\" --flash_mode dio --flash_size 4MB 0x0 \"" ++ bootloaderPath envW
          ++ "\" 0x8000 \"" ++ partitionsPath envW
          ++ "\" 0x10000 \"" ++ firmwarePath envW ++ "\"") :=
  merge_cmd_offsets envW runCreates fsFull (by decide)

/-- C10: when the merge is skipped because a prerequisite is missing, the
hook leaves the filesystem exactly as it was, launches no external process
and raises nothing: its whole result is the warning message (after any
version-resolution warning). -/
theorem skip_leaves_fs_unchanged (env : Env) (run : Runner) (fs : FS)
    (hp : prereqsExist env fs = false) :
    merge_bin_action env run fs
      = { msgs := (get_firmware_version env fs).2 ++ [OutMsg.warnNotAllExist],
          fs := fs, invoked := none, raised := false } :=
  merge_skip_eq env run fs hp

/-- Witness for C10 at the build directory missing `partitions.bin`. -/
theorem skip_leaves_fs_unchanged_witness :
    merge_bin_action envW runCreates fsNoPartitions
      = { msgs := (get_firmware_version envW fsNoPartitions).2 ++ [OutMsg.warnNotAllExist],
          fs := fsNoPartitions, invoked := none, raised := false } :=
  skip_leaves_fs_unchanged envW runCreates fsNoPartitions (by decide)

/-- C3: for every input file whose text contains a line matching the
version-defining macro pattern `define <NAME> "<value>"` with the constant
name `FIRMWARE_VERSION` (and no `#` before it, so that this is the first
candidate match), `get_firmware_version` returns exactly the quoted value,
verbatim, including any embedded punctuation. -/
theorem version_extracts_quoted_value (env : Env) (fs : FS) (fd : FileData)
    (pre ws1 ws2 v post : String)
    (hpre : ∀ c ∈ pre.data, c ≠ '#')
    (hws1 : ws1.data ≠ []) (hws1s : ∀ c ∈ ws1.data, isPySpace c = true)
    (hws2 : ws2.data ≠ []) (hws2s : ∀ c ∈ ws2.data, isPySpace c = true)
    (hv : v.data ≠ []) (hvq : ∀ c ∈ v.data, c ≠ '"')
    (hread : fsRead fs (configPath env) = some fd)
    (hcontent : fd.content
      = pre ++ "#define" ++ ws1 ++ "FIRMWARE_VERSION" ++ ws2 ++ "\"" ++ v ++ "\"" ++ post) :
    (get_firmware_version env fs).1 = v := by
  simp only [get_firmware_version, hread]
  have hdata : fd.content.data
      = pre.data ++ (defineTok ++ (ws1.data ++ (fwVersionTok
          ++ (ws2.data ++ '"' :: (v.data ++ '"' :: post.data))))) := by
    rw [hcontent]
    simp only [String.data_append, defineTok, fwVersionTok, List.append_assoc]
    rfl
  rw [hdata,
    reSearchDefine_build pre.data ws1.data ws2.data v.data post.data
      hpre hws1 hws1s hws2 hws2s hv hvq]

/-- Witness for C3 at the end-to-end example of the spec:
`#define FIRMWARE_VERSION "1.2.3"` resolves to `1.2.3`. -/
theorem version_extracts_quoted_value_witness :
    (get_firmware_version ⟨"/proj", "/build", "python3"⟩
      [("/proj/include/config.h", ⟨"#define FIRMWARE_VERSION \"1.2.3\"", 7⟩)]).1 = "1.2.3" := by
  have h := version_extracts_quoted_value ⟨"/proj", "/build", "python3"⟩
    [("/proj/include/config.h", ⟨"#define FIRMWARE_VERSION \"1.2.3\"", 7⟩)]
    ⟨"#define FIRMWARE_VERSION \"1.2.3\"", 7⟩
    "" " " " " "1.2.3" ""
    (by decide) (by decide) (by decide) (by decide) (by decide) (by decide) (by decide)
    (by decide) (by decide)
  exact h

/-- C4: for a missing (unreadable) version file, and for a readable file
whose text contains no line matching the version pattern,
`get_firmware_version` returns the sentinel `"unknown"`; being a total
function of the filesystem, it never raises to its caller. -/
theorem version_unknown_on_failure (env : Env) (fs : FS) :
    (fsRead fs (configPath env) = none →
      get_firmware_version env fs = ("unknown", [OutMsg.warnVersionRead]))
    ∧ (∀ fd, fsRead fs (configPath env) = some fd →
        reSearchDefine fd.content.data = none →
        get_firmware_version env fs = ("unknown", [])) := by
  constructor
  · intro h
    simp [get_firmware_version, h]
  · intro fd h hm
    simp [get_firmware_version, h, hm]

/-- Witness for C4: an empty filesystem (missing file) and a `config.h`
without the pattern both resolve to the sentinel. -/
theorem version_unknown_on_failure_witness :
    get_firmware_version envW [] = ("unknown", [OutMsg.warnVersionRead])
    ∧ get_firmware_version envW [("/proj/include/config.h", ⟨"no version here", 4⟩)]
        = ("unknown", []) :=
  ⟨(version_unknown_on_failure envW []).1 (by decide),
   (version_unknown_on_failure envW [("/proj/include/config.h", ⟨"no version here", 4⟩)]).2
     ⟨"no version here", 4⟩ (by decide) (by decide)⟩

/-- C5: the OTA output is produced independently of the setup-image
prerequisites: for every filesystem in which `firmware.bin` exists —
bootloader or partition table present or not — `rename_app_firmware`
copies it, content and timestamp metadata preserved, to
`app-firmware-<version>.bin` and reports the copied size; when
`firmware.bin` does not exist it does nothing (no write, no copy message). -/
theorem ota_rename_independent (env : Env) (fs : FS) :
    (∀ fd, fsRead fs (firmwarePath env) = some fd →
      rename_app_firmware env fs
        = { msgs := (get_firmware_version env fs).2
              ++ [OutMsg.createdApp (get_firmware_version env fs).1 fd.content.length],
            fs := fsWrite fs (outputPath env OutputKind.app (get_firmware_version env fs).1) fd,
            raised := false })
    ∧ (fsRead fs (firmwarePath env) = none →
        rename_app_firmware env fs
          = { msgs := (get_firmware_version env fs).2, fs := fs, raised := false }) :=
  ⟨fun fd h => rename_copy_eq env fs fd h, fun h => rename_noop_eq env fs h⟩

/-- Witness for C5: with the partition table missing the OTA copy is still
produced, byte-identical with its timestamp, and the size is reported. -/
theorem ota_rename_independent_witness :
    rename_app_firmware envW fsNoPartitions
      = { msgs := (get_firmware_version envW fsNoPartitions).2
            ++ [OutMsg.createdApp (get_firmware_version envW fsNoPartitions).1 4],
          fs := fsWrite fsNoPartitions
            (outputPath envW OutputKind.app (get_firmware_version envW fsNoPartitions).1)
            ⟨"FWFW", 13⟩,
          raised := false } :=
  (ota_rename_independent envW fsNoPartitions).1 ⟨"FWFW", 13⟩ (by decide)

/-- C9: whatever the version file holds, the resolved version is either the
sentinel `"unknown"` or a non-empty string containing no double-quote
character; in particular an empty quoted value
(`#define FIRMWARE_VERSION ""`) resolves to the sentinel, because the
extraction pattern requires at least one non-quote character. -/
theorem version_shape :
    (∀ (env : Env) (fs : FS),
      (get_firmware_version env fs).1 = "unknown"
        ∨ ((get_firmware_version env fs).1.data ≠ []
            ∧ ∀ c ∈ (get_firmware_version env fs).1.data, c ≠ '"'))
    ∧ (get_firmware_version envW
        [("/proj/include/config.h", ⟨"#define FIRMWARE_VERSION \"\"", 3⟩)]).1
        = "unknown" := by
  constructor
  · intro env fs
    cases h : fsRead fs (configPath env) with
    | none => left; simp [get_firmware_version, h]
    | some fd =>
      cases hm : reSearchDefine fd.content.data with
      | none => left; simp [get_firmware_version, h, hm]
      | some v =>
        right
        simp only [get_firmware_version, h, hm]
        exact reSearchDefine_shape _ _ hm
  · decide

/-- Witness for C9: the non-sentinel branch at the concrete full build. -/
theorem version_shape_witness :
    (get_firmware_version envW fsFull).1 = "unknown"
      ∨ ((get_firmware_version envW fsFull).1.data ≠ []
          ∧ ∀ c ∈ (get_firmware_version envW fsFull).1.data, c ≠ '"') :=
  version_shape.1 envW fsFull

/-- C7: when the external merge process exits zero having produced an
output file of `N` bytes at the setup output path, the size reported by
`merge_bin_action` equals exactly `N`. -/
theorem merge_reports_exact_size (env : Env) (run : Runner) (fs : FS)
    (pr : ProcResult) (fs' : FS) (fd : FileData) (N : Nat)
    (hp : prereqsExist env fs = true)
    (hrun : run (mergeCmdFor env (get_firmware_version env fs).1) fs = (pr, fs'))
    (hrc : pr.returncode = 0)
    (hout : fsRead fs' (outputPath env OutputKind.setup (get_firmware_version env fs).1)
      = some fd)
    (hN : fd.content.length = N) :
    (merge_bin_action env run fs).msgs
      = (get_firmware_version env fs).2
        ++ [OutMsg.creatingSetup (get_firmware_version env fs).1,
            OutMsg.createdSetup (get_firmware_version env fs).1 N,
            OutMsg.buildOutputs (env.subst "$BUILD_DIR") (get_firmware_version env fs).1] := by
  rw [merge_success_eq env run fs pr fs' N hp hrun hrc
    (by rw [os_path_getsize_of_read fs' _ fd hout, hN])]

/-- Witness for C7: an external tool writing a six-byte setup image makes
the hook report exactly six bytes. -/
theorem merge_reports_exact_size_witness :
    (merge_bin_action envW runCreates fsFull).msgs
      = (get_firmware_version envW fsFull).2
        ++ [OutMsg.creatingSetup (get_firmware_version envW fsFull).1,
            OutMsg.createdSetup (get_firmware_version envW fsFull).1 6,
            OutMsg.buildOutputs (envW.subst "$BUILD_DIR")
              (get_firmware_version envW fsFull).1] :=
  merge_reports_exact_size envW runCreates fsFull ⟨0, "", ""⟩
    (fsWrite fsFull "/build/setup-firmware-1.2.3.bin" ⟨"MERGED", 99⟩) ⟨"MERGED", 99⟩ 6
    (by decide) rfl rfl (by decide) rfl

/-- Counterexample to C6 as stated: an external-process outcome with exit
code zero and empty captured output that creates no output file makes the
unguarded `os.path.getsize` on the success path raise out of the hook. -/
theorem merge_raises_on_phantom_success :
    (merge_bin_action envW runPhantomOk fsFull).raised = true := by decide

/-- C6 (amended): for version-resolution failures, missing artifacts, and
every external-process outcome whose exit code is nonzero (any captured
output), no exception propagates out of the hook, and on nonzero exit the
failure report includes the captured standard-error text; on a zero exit
code no exception propagates provided the reported output file was in fact
produced. -/
theorem merge_no_exception_amended (env : Env) (run : Runner) (fs : FS)
    (pr : ProcResult) (fs' : FS) :
    (prereqsExist env fs = false → (merge_bin_action env run fs).raised = false)
    ∧ (prereqsExist env fs = true →
        run (mergeCmdFor env (get_firmware_version env fs).1) fs = (pr, fs') →
        (pr.returncode ≠ 0 →
          (merge_bin_action env run fs).raised = false
          ∧ (merge_bin_action env run fs).msgs
              = (get_firmware_version env fs).2
                ++ [OutMsg.creatingSetup (get_firmware_version env fs).1,
                    OutMsg.errorMerge pr.stderr])
        ∧ (pr.returncode = 0 →
            ∀ fd, fsRead fs'
                (outputPath env OutputKind.setup (get_firmware_version env fs).1) = some fd →
              (merge_bin_action env run fs).raised = false)) := by
  constructor
  · intro hp
    rw [merge_skip_eq env run fs hp]
  · intro hp hrun
    constructor
    · intro hrc
      rw [merge_failure_eq env run fs pr fs' hp hrun hrc]
      exact ⟨rfl, rfl⟩
    · intro hrc fd hout
      rw [merge_success_eq env run fs pr fs' fd.content.length hp hrun hrc
        (os_path_getsize_of_read fs' _ fd hout)]

/-- Witness for C6 (amended): on a failing tool no exception escapes and
the report carries the captured stderr. -/
theorem merge_no_exception_amended_witness :
    (merge_bin_action envW runFail fsFull).raised = false
    ∧ (merge_bin_action envW runFail fsFull).msgs
        = (get_firmware_version envW fsFull).2
          ++ [OutMsg.creatingSetup (get_firmware_version envW fsFull).1,
              OutMsg.errorMerge "merge blew up"] :=
  ((merge_no_exception_amended envW runFail fsFull ⟨1, "", "merge blew up"⟩ fsFull).2
    (by decide) rfl).1 (by decide)

/-- C8: output filenames are pure, deterministic functions of
(kind, version): equal inputs give identical names, the names are
`app-firmware-<v>.bin` and `setup-firmware-<v>.bin`, the sentinel version
still yields the valid filename `app-firmware-unknown.bin`, and these are
exactly the names at which the OTA hook writes its copy and to which the
merge command directs its output. -/
theorem output_names_pure :
    (∀ (k : OutputKind) (v1 v2 : String), v1 = v2 → outputName k v1 = outputName k v2)
    ∧ (∀ v, outputName OutputKind.app v = "app-firmware-" ++ v ++ ".bin")
    ∧ (∀ v, outputName OutputKind.setup v = "setup-firmware-" ++ v ++ ".bin")
    ∧ (outputName OutputKind.app "unknown" = "app-firmware-unknown.bin")
    ∧ (∀ (env : Env) (fs : FS) (fd : FileData), fsRead fs (firmwarePath env) = some fd →
        (rename_app_firmware env fs).fs
          = fsWrite fs (outputPath env OutputKind.app (get_firmware_version env fs).1) fd)
    ∧ (∀ (env : Env) (run : Runner) (fs : FS), prereqsExist env fs = true →
        (merge_bin_action env run fs).invoked
          = some (mergeCmdFor env (get_firmware_version env fs).1)) := by
  refine ⟨fun k v1 v2 h => by rw [h], fun v => rfl, fun v => rfl, by decide, ?_, ?_⟩
  · intro env fs fd h
    rw [rename_copy_eq env fs fd h]
  · intro env run fs hp
    exact merge_invoked_eq env run fs hp

/-- Witness for C8: the sentinel filename, and the merge invocation at the
concrete full build directory. -/
theorem output_names_pure_witness :
    outputName OutputKind.app "unknown" = "app-firmware-unknown.bin"
    ∧ (merge_bin_action envW runCreates fsFull).invoked
        = some (mergeCmdFor envW (get_firmware_version envW fsFull).1) :=
  ⟨output_names_pure.2.2.2.1,
   output_names_pure.2.2.2.2.2 envW runCreates fsFull (by decide)⟩

end MergeFirmware
